import Mathlib

/-!
Verification of the telemetry simulation and status-classification engine of
the ELECTRO-HMI power-distribution dashboard.

The numeric model uses exact rationals (ℚ) for the JavaScript `number`
arithmetic of the source; `Math.max(0, x)` becomes `max 0 x`.  External
effects (the `Math.random()` draw, `Date.now()`, the Gemini API call) are
threaded as explicit parameters, following the shapes the source gives them.
-/

namespace HMI

/-- `SystemStatus` enum from types.ts. -/
inductive SystemStatus where
  | NOMINAL
  | WARNING
  | CRITICAL
deriving DecidableEq, Repr

/-- `TelemetryData` interface from types.ts: one immutable telemetry sample. -/
structure TelemetryData where
  timestamp : ℚ
  voltage : ℚ
  current : ℚ
  power : ℚ
  temperature : ℚ
  frequency : ℚ
  efficiency : ℚ
  status : SystemStatus
deriving DecidableEq, Repr

/-- constants.ts: history capacity. -/
def MAX_HISTORY_LENGTH : ℕ := 60

/-- constants.ts: nominal line voltage. -/
def NOMINAL_VOLTAGE : ℚ := 240

/-- constants.ts: nominal frequency. -/
def NOMINAL_FREQUENCY : ℚ := 60

/-- A min/max advisory band (voltage entry of `THRESHOLDS`). -/
structure MinMaxBand where
  min : ℚ
  max : ℚ
deriving DecidableEq, Repr

/-- A warning/critical band (current, temperature, power entries of `THRESHOLDS`). -/
structure WarnCritBand where
  warning : ℚ
  critical : ℚ
deriving DecidableEq, Repr

/-- constants.ts `THRESHOLDS` table. -/
structure ThresholdTable where
  voltage : MinMaxBand
  current : WarnCritBand
  temperature : WarnCritBand
  power : WarnCritBand
deriving DecidableEq, Repr

/-- constants.ts: the threshold values. -/
def THRESHOLDS : ThresholdTable :=
  { voltage := { min := 220, max := 260 }
    current := { warning := 15, critical := 25 }
    temperature := { warning := 60, critical := 85 }
    power := { warning := 3600, critical := 6000 } }

/-- constants.ts `MOCK_INITIAL_DATA`; its `timestamp: Date.now()` is the
module-load instant, passed here as the parameter `now`. -/
def MOCK_INITIAL_DATA (now : ℚ) : TelemetryData :=
  { voltage := NOMINAL_VOLTAGE
    current := 0
    power := 0
    temperature := 25
    frequency := NOMINAL_FREQUENCY
    efficiency := 100
    status := SystemStatus.NOMINAL
    timestamp := now }

/-- The status-determination block of `simulateStep` (App.tsx lines 62-68),
the ThresholdPolicy of the spec: first match wins among
CRITICAL, WARNING, NOMINAL. -/
def classify (power temp : ℚ) : SystemStatus :=
  if power > THRESHOLDS.power.critical ∨ temp > THRESHOLDS.temperature.critical then
    SystemStatus.CRITICAL
  else if power > THRESHOLDS.power.warning ∨ temp > THRESHOLDS.temperature.warning then
    SystemStatus.WARNING
  else
    SystemStatus.NOMINAL

/-- `simulateStep` from App.tsx.  The single `Math.random() - 0.5` draw is the
parameter `noise`; `Date.now()` at return time is the parameter `now`. -/
def simulateStep (currentData : TelemetryData) (targetLoad : ℚ)
    (noise : ℚ) (now : ℚ) : TelemetryData :=
  let loadFactor := targetLoad / 100
  let voltageBase := NOMINAL_VOLTAGE - (loadFactor * 5) + (noise * 1.5)
  let maxCurrent : ℚ := 30
  let currentBase := (maxCurrent * loadFactor) + (noise * 0.2)
  let power := voltageBase * currentBase
  let targetTemp := 25 + (loadFactor * 60)
  let tempChange := (targetTemp - currentData.temperature) * 0.05
  let temp := currentData.temperature + tempChange + (noise * 0.1)
  let eff0 := 95 - (|loadFactor - 0.5| * 10) + (noise * 0.5)
  let eff := if eff0 > 100 then (100 : ℚ) else eff0
  { timestamp := now
    voltage := max 0 voltageBase
    current := max 0 currentBase
    power := max 0 power
    temperature := temp
    frequency := NOMINAL_FREQUENCY + (noise * 0.1)
    efficiency := eff
    status := classify power temp }

/-- `SystemState` interface from types.ts. -/
structure SystemState where
  isConnected : Bool
  simulationActive : Bool
  targetLoad : ℚ
  data : TelemetryData
  history : List TelemetryData
deriving DecidableEq, Repr

/-- App.tsx initial `useState` value: load 40, both flags true, history
pre-filled with `MAX_HISTORY_LENGTH` copies of the seed sample. -/
def initialSystemState (now : ℚ) : SystemState :=
  { isConnected := true
    simulationActive := true
    targetLoad := 40
    data := MOCK_INITIAL_DATA now
    history := List.replicate MAX_HISTORY_LENGTH (MOCK_INITIAL_DATA now) }

/-- The body of the interval callback in App.tsx (lines 88-92): one tick of
the driver while the simulation is active.  `[...prev.history.slice(1),
newData]` is `prev.history.drop 1 ++ [newData]`. -/
def tickUpdate (noise now : ℚ) (prev : SystemState) : SystemState :=
  let newData := simulateStep prev.data prev.targetLoad noise now
  { prev with data := newData, history := prev.history.drop 1 ++ [newData] }

/-- `handleLoadChange` from App.tsx (lines 116-118): `v` stands for
`parseInt(e.target.value)`; the handler stores it with no validation. -/
def handleLoadChange (prev : SystemState) (v : ℚ) : SystemState :=
  { prev with targetLoad := v }

/-- Iterating the driver tick over a list of (noise, timestamp) inputs,
as the interval handler of App.tsx does once per period. -/
def runTicks (inputs : List (ℚ × ℚ)) (st : SystemState) : SystemState :=
  inputs.foldl (fun s p => tickUpdate p.1 p.2 s) st

/-- `DiagnosticsReport` interface from types.ts; `estimatedTimeUntilFailure`
is optional there. -/
structure DiagnosticsReport where
  status : SystemStatus
  analysis : String
  recommendation : String
  estimatedTimeUntilFailure : Option String
deriving DecidableEq, Repr

/-- The parsed JSON payload of a successful Gemini response
(`GeminiResponseSchema` in types.ts).  The response schema constrains
`status` to the three enum values, which the source then casts unchecked
with `as SystemStatus`; the model therefore carries it as `SystemStatus`. -/
structure GeminiResponseSchema where
  status : SystemStatus
  analysis : String
  recommendation : String
  estimatedTimeUntilFailure : String
deriving DecidableEq, Repr

/-- Outcome of the awaited API call and the subsequent parsing attempts
inside the try block of `generateDiagnostics`:
`apiError` — `ai.models.generateContent` throws (network/API error);
`emptyResponse` — `response.text` is missing or empty, so the source throws
"No response from AI"; `malformed` — `JSON.parse(jsonText)` throws;
`parsed` — parsing succeeds with the given payload. -/
inductive ApiOutcome where
  | apiError
  | emptyResponse
  | malformed (text : String)
  | parsed (data : GeminiResponseSchema)
deriving DecidableEq, Repr

/-- Whether an `ApiOutcome` makes the try block throw (and thus reach the
catch clause). -/
def ApiOutcome.isFailure : ApiOutcome → Bool
  | .apiError => true
  | .emptyResponse => true
  | .malformed _ => true
  | .parsed _ => false

/-- The fixed degraded report built in the catch clause of
`generateDiagnostics` (geminiService.ts lines 75-80). -/
def fallbackReport : DiagnosticsReport :=
  { status := SystemStatus.WARNING
    analysis := "Automated diagnostics failed. Connection error."
    recommendation := "Check network connection and retry."
    estimatedTimeUntilFailure := some "Unknown" }

/-- The message of the error thrown when `process.env.API_KEY` is absent
(geminiService.ts line 10); this throw sits before the try block. -/
def apiKeyMissingMsg : String :=
  "API Key is missing. Please check your environment configuration."

/-- `generateDiagnostics` from geminiService.ts.  `apiKey` models
`process.env.API_KEY` (`none` = unset; the source's `if (!apiKey)` is also
taken for the empty string, which is falsy).  A thrown error that escapes
the function (a rejected promise) is `Except.error` with the thrown message;
every throw inside the try block is caught and replaced by
`fallbackReport`. -/
def generateDiagnostics (apiKey : Option String) (outcome : ApiOutcome) :
    Except String DiagnosticsReport :=
  if apiKey = none ∨ apiKey = some "" then
    Except.error apiKeyMissingMsg
  else
    match outcome with
    | .apiError => Except.ok fallbackReport
    | .emptyResponse => Except.ok fallbackReport
    | .malformed _ => Except.ok fallbackReport
    | .parsed data =>
        Except.ok
          { status := data.status
            analysis := data.analysis
            recommendation := data.recommendation
            estimatedTimeUntilFailure := some data.estimatedTimeUntilFailure }

/-- A JavaScript number that is either NaN or an ordinary (here: rational)
value, for stating how the classification behaves on non-finite inputs. -/
inductive JSNum where
  | nan
  | val (q : ℚ)
deriving DecidableEq, Repr

/-- The JavaScript comparison `x > c`: any comparison with NaN is false. -/
def jsGt : JSNum → ℚ → Bool
  | .nan, _ => false
  | .val q, c => decide (q > c)

/-- The status-determination block of `simulateStep` (App.tsx lines 62-68)
under JavaScript comparison semantics, so that NaN operands can be
discussed: same thresholds and precedence as `classify`. -/
def classifyJS (power temp : JSNum) : SystemStatus :=
  if jsGt power THRESHOLDS.power.critical ||
      jsGt temp THRESHOLDS.temperature.critical then
    SystemStatus.CRITICAL
  else if jsGt power THRESHOLDS.power.warning ||
      jsGt temp THRESHOLDS.temperature.warning then
    SystemStatus.WARNING
  else
    SystemStatus.NOMINAL

/-- A hypothetical per-field-noise variant of `simulateStep`: the same
formulas, but with an independent noise draw for each derived quantity
(voltage, current, temperature, frequency, efficiency).  `simulateStep`
must coincide with this function on the diagonal, which expresses that the
source draws one scalar noise value and reuses it in every formula. -/
def simulateStepPerFieldNoise (currentData : TelemetryData) (targetLoad : ℚ)
    (nV nC nT nF nE : ℚ) (now : ℚ) : TelemetryData :=
  let loadFactor := targetLoad / 100
  let voltageBase := NOMINAL_VOLTAGE - (loadFactor * 5) + (nV * 1.5)
  let maxCurrent : ℚ := 30
  let currentBase := (maxCurrent * loadFactor) + (nC * 0.2)
  let power := voltageBase * currentBase
  let targetTemp := 25 + (loadFactor * 60)
  let tempChange := (targetTemp - currentData.temperature) * 0.05
  let temp := currentData.temperature + tempChange + (nT * 0.1)
  let eff0 := 95 - (|loadFactor - 0.5| * 10) + (nE * 0.5)
  let eff := if eff0 > 100 then (100 : ℚ) else eff0
  { timestamp := now
    voltage := max 0 voltageBase
    current := max 0 currentBase
    power := max 0 power
    temperature := temp
    frequency := NOMINAL_FREQUENCY + (nF * 0.1)
    efficiency := eff
    status := classify power temp }

/-- The temperature trajectory of the stepper with the noise forced to 0:
`tempIter tl T0 k` is the temperature after `k` steps at fixed target load
`tl`, starting from a sample whose temperature is `T0` (the other fields of
the carrier sample are irrelevant to the temperature formula). -/
def tempIter (tl T0 : ℚ) : ℕ → ℚ
  | 0 => T0
  | k + 1 =>
      (simulateStep { MOCK_INITIAL_DATA 0 with temperature := tempIter tl T0 k }
        tl 0 0).temperature

end HMI

namespace HMI

/-- Clamping a value at 0 from below does not change which positive
thresholds it exceeds, so classification is insensitive to the floor-clamp
on power. -/
lemma classify_max_zero (p t : ℚ) : classify (max 0 p) t = classify p t := by
  unfold classify THRESHOLDS
  simp only [gt_iff_lt, lt_max_iff]
  norm_num

/-- For a positive left factor, clamping the factors at 0 before multiplying
agrees with clamping the product at 0. -/
lemma max_zero_mul_of_pos (a b : ℚ) (ha : 0 < a) :
    max 0 (a * b) = max 0 (max 0 a * max 0 b) := by
  rw [max_eq_right ha.le]
  rcases le_or_lt 0 b with hb | hb
  · rw [max_eq_right hb]
  · have hab : a * b ≤ 0 := mul_nonpos_iff.mpr (Or.inl ⟨ha.le, hb.le⟩)
    rw [max_eq_left hb.le, mul_zero, max_eq_left hab, max_self]

/-- **C2.**  The classification of (power, temperature) is total and evaluated
in precedence order: CRITICAL iff power > 6000 or temperature > 85; else
WARNING iff power > 3600 or temperature > 60; else NOMINAL; and the four
concrete samples classify as the spec states. -/
theorem classify_precedence_characterization :
    (∀ p t : ℚ,
      (classify p t = SystemStatus.CRITICAL ↔ p > 6000 ∨ t > 85) ∧
      (classify p t = SystemStatus.WARNING ↔
        ¬(p > 6000 ∨ t > 85) ∧ (p > 3600 ∨ t > 60)) ∧
      (classify p t = SystemStatus.NOMINAL ↔
        ¬(p > 6000 ∨ t > 85) ∧ ¬(p > 3600 ∨ t > 60))) ∧
    classify 7000 10 = SystemStatus.CRITICAL ∧
    classify 4000 10 = SystemStatus.WARNING ∧
    classify 1000 10 = SystemStatus.NOMINAL ∧
    classify 1000 90 = SystemStatus.CRITICAL := by
  refine ⟨fun p t => ?_, by decide, by decide, by decide, by decide⟩
  unfold classify THRESHOLDS
  split_ifs with h1 h2 <;>
    simp_all

/-- **C1.**  For every previous sample and every targetLoad in [0,120], the
sample returned by `simulateStep` has its `status` field equal to the
threshold classification applied to that same returned sample's own `power`
and `temperature` fields. -/
theorem simulateStep_status_matches_classify (prev : TelemetryData)
    (tl noise now : ℚ) (h0 : 0 ≤ tl) (h1 : tl ≤ 120) :
    (simulateStep prev tl noise now).status =
      classify (simulateStep prev tl noise now).power
        (simulateStep prev tl noise now).temperature := by
  simp only [simulateStep]
  rw [classify_max_zero]

/-- Witness for C1 at targetLoad 50, zero noise, the seed sample. -/
theorem simulateStep_status_matches_classify_w :
    (0 : ℚ) ≤ 50 ∧ (50 : ℚ) ≤ 120 ∧
    (simulateStep (MOCK_INITIAL_DATA 0) 50 0 0).status =
      classify (simulateStep (MOCK_INITIAL_DATA 0) 50 0 0).power
        (simulateStep (MOCK_INITIAL_DATA 0) 50 0 0).temperature :=
  ⟨by norm_num, by norm_num,
    simulateStep_status_matches_classify (MOCK_INITIAL_DATA 0) 50 0 0
      (by norm_num) (by norm_num)⟩

/-- **C5.**  For every previous sample, targetLoad in [0,120] and noise in
[-0.5, 0.5), the returned `power` equals the product of the returned
(floor-clamped) `voltage` and `current` fields, floored at 0. -/
theorem simulateStep_power_is_clamped_product (prev : TelemetryData)
    (tl noise now : ℚ) (htl0 : 0 ≤ tl) (htl1 : tl ≤ 120)
    (hn0 : -(1/2) ≤ noise) (hn1 : noise < 1/2) :
    (simulateStep prev tl noise now).power =
      max 0 ((simulateStep prev tl noise now).voltage *
        (simulateStep prev tl noise now).current) := by
  simp only [simulateStep]
  apply max_zero_mul_of_pos
  unfold NOMINAL_VOLTAGE
  nlinarith

/-- Witness for C5 at targetLoad 50, noise 1/4, the seed sample. -/
theorem simulateStep_power_is_clamped_product_w :
    (0 : ℚ) ≤ 50 ∧ (50 : ℚ) ≤ 120 ∧ -(1/2) ≤ (1/4 : ℚ) ∧ (1/4 : ℚ) < 1/2 ∧
    (simulateStep (MOCK_INITIAL_DATA 0) 50 (1/4) 0).power =
      max 0 ((simulateStep (MOCK_INITIAL_DATA 0) 50 (1/4) 0).voltage *
        (simulateStep (MOCK_INITIAL_DATA 0) 50 (1/4) 0).current) :=
  ⟨by norm_num, by norm_num, by norm_num, by norm_num,
    simulateStep_power_is_clamped_product (MOCK_INITIAL_DATA 0) 50 (1/4) 0
      (by norm_num) (by norm_num) (by norm_num) (by norm_num)⟩

/-- **C6.**  For every targetLoad in [0,120], valid prior sample and noise in
[-0.5, 0.5), the returned sample satisfies voltage ≥ 0, current ≥ 0,
power ≥ 0 and efficiency ≤ 100. -/
theorem simulateStep_output_bounds (prev : TelemetryData)
    (tl noise now : ℚ) (htl0 : 0 ≤ tl) (htl1 : tl ≤ 120)
    (hn0 : -(1/2) ≤ noise) (hn1 : noise < 1/2) :
    0 ≤ (simulateStep prev tl noise now).voltage ∧
    0 ≤ (simulateStep prev tl noise now).current ∧
    0 ≤ (simulateStep prev tl noise now).power ∧
    (simulateStep prev tl noise now).efficiency ≤ 100 := by
  refine ⟨?_, ?_, ?_, ?_⟩ <;> simp only [simulateStep]
  · exact le_max_left 0 _
  · exact le_max_left 0 _
  · exact le_max_left 0 _
  · split_ifs with h
    · exact le_refl 100
    · linarith [not_lt.mp h]

/-- The last element of a nonempty constant list is its repeated element. -/
lemma getLast?_replicate_succ {α : Type} (n : ℕ) (a : α) :
    (List.replicate (n + 1) a).getLast? = some a := by
  induction n with
  | zero => rfl
  | succ k ih =>
      rw [List.replicate_succ, List.replicate_succ, List.getLast?_cons_cons,
        ← List.replicate_succ, ih]

/-- One tick preserves the history invariant: the buffer keeps its length and
its last element is the new current sample. -/
lemma tickUpdate_preserves_invariant (noise now : ℚ) (st : SystemState)
    (h : st.history.length = MAX_HISTORY_LENGTH) :
    (tickUpdate noise now st).history.length = MAX_HISTORY_LENGTH ∧
    (tickUpdate noise now st).history.getLast? =
      some (tickUpdate noise now st).data := by
  constructor
  · simp only [tickUpdate, List.length_append, List.length_drop, h]
    rfl
  · simp only [tickUpdate]
    rw [List.getLast?_append_cons]
    rfl

/-- The history invariant is preserved along any run of ticks. -/
lemma runTicks_invariant (inputs : List (ℚ × ℚ)) (st : SystemState)
    (h : st.history.length = MAX_HISTORY_LENGTH ∧
      st.history.getLast? = some st.data) :
    (runTicks inputs st).history.length = MAX_HISTORY_LENGTH ∧
    (runTicks inputs st).history.getLast? = some (runTicks inputs st).data := by
  induction inputs generalizing st with
  | nil => exact h
  | cons p ps ih =>
      exact ih (tickUpdate p.1 p.2 st) (tickUpdate_preserves_invariant p.1 p.2 st h.1)

/-- **C7.**  Starting from the initial state (history pre-filled with 60
copies of the seed sample), after any sequence of ticks the history has
length exactly 60, its last element is the current sample, and each further
tick evicts the oldest entry and appends the new sample at the end (FIFO,
chronological order). -/
theorem driver_history_invariant (inputs : List (ℚ × ℚ)) (ts : ℚ) :
    (runTicks inputs (initialSystemState ts)).history.length =
      MAX_HISTORY_LENGTH ∧
    (runTicks inputs (initialSystemState ts)).history.getLast? =
      some (runTicks inputs (initialSystemState ts)).data ∧
    ∀ noise now,
      (tickUpdate noise now (runTicks inputs (initialSystemState ts))).history =
        (runTicks inputs (initialSystemState ts)).history.drop 1 ++
          [(tickUpdate noise now (runTicks inputs (initialSystemState ts))).data] := by
  have hinit : (initialSystemState ts).history.length = MAX_HISTORY_LENGTH ∧
      (initialSystemState ts).history.getLast? =
        some (initialSystemState ts).data := by
    constructor
    · simp [initialSystemState]
    · exact getLast?_replicate_succ 59 (MOCK_INITIAL_DATA ts)
  obtain ⟨h1, h2⟩ := runTicks_invariant inputs (initialSystemState ts) hinit
  exact ⟨h1, h2, fun noise now => rfl⟩

/-- **C4, counterexample.**  Feeding the out-of-range value 150 to the load
handler changes the stored targetLoad (to 150, from the initial 40): the call
is not rejected, no error is signalled, and state does change. -/
theorem handleLoadChange_accepts_150 :
    (handleLoadChange (initialSystemState 0) 150).targetLoad = 150 ∧
    (handleLoadChange (initialSystemState 0) 150).targetLoad ≠
      (initialSystemState 0).targetLoad := by
  constructor
  · rfl
  · decide

/-- **C4, amended.**  The load handler performs no validation, clamping or
error signalling: for any parsed input value (in range, out of range, or
non-integer) it unconditionally stores that value as targetLoad and leaves
every other state field unchanged; no InvalidControlInput error exists. -/
theorem handleLoadChange_no_validation (prev : SystemState) (v : ℚ) :
    (handleLoadChange prev v).targetLoad = v ∧
    (handleLoadChange prev v).isConnected = prev.isConnected ∧
    (handleLoadChange prev v).simulationActive = prev.simulationActive ∧
    (handleLoadChange prev v).data = prev.data ∧
    (handleLoadChange prev v).history = prev.history :=
  ⟨rfl, rfl, rfl, rfl, rfl⟩

/-- Witness for C6 at targetLoad 120, noise -1/4, the seed sample. -/
theorem simulateStep_output_bounds_w :
    (0 : ℚ) ≤ 120 ∧ (120 : ℚ) ≤ 120 ∧ -(1/2) ≤ (-(1/4) : ℚ) ∧
    (-(1/4) : ℚ) < 1/2 ∧
    (0 ≤ (simulateStep (MOCK_INITIAL_DATA 0) 120 (-(1/4)) 0).voltage ∧
     0 ≤ (simulateStep (MOCK_INITIAL_DATA 0) 120 (-(1/4)) 0).current ∧
     0 ≤ (simulateStep (MOCK_INITIAL_DATA 0) 120 (-(1/4)) 0).power ∧
     (simulateStep (MOCK_INITIAL_DATA 0) 120 (-(1/4)) 0).efficiency ≤ 100) :=
  ⟨by norm_num, by norm_num, by norm_num, by norm_num,
    simulateStep_output_bounds (MOCK_INITIAL_DATA 0) 120 (-(1/4)) 0
      (by norm_num) (by norm_num) (by norm_num) (by norm_num)⟩

/-- Comparisons whose left operand is NaN are false. -/
lemma jsGt_nan (c : ℚ) : jsGt JSNum.nan c = false := rfl

/-- On finite values the JavaScript-semantics classifier agrees with the
rational classifier used by the stepper. -/
lemma classifyJS_val_eq_classify (p t : ℚ) :
    classifyJS (JSNum.val p) (JSNum.val t) = classify p t := by
  unfold classifyJS classify jsGt
  split_ifs with h1 h2 h3 h4 h5 h6 <;> simp_all

/-- **C3, counterexample.**  With the API credential missing, the call fails
but `generateDiagnostics` does not return the fallback report: it throws
(the promise rejects) with the API-key error message, because that throw
sits before the try/catch. -/
theorem generateDiagnostics_missing_key_throws :
    generateDiagnostics none ApiOutcome.apiError =
      Except.error apiKeyMissingMsg ∧
    generateDiagnostics none ApiOutcome.apiError ≠
      Except.ok fallbackReport := by
  constructor
  · rfl
  · intro h
    rw [show generateDiagnostics none ApiOutcome.apiError =
      Except.error apiKeyMissingMsg from rfl] at h
    exact Except.noConfusion h

/-- **C3, amended.**  For every failure of the API call itself — network/API
error, empty response, malformed payload — `generateDiagnostics` returns
exactly the fallback report; but a missing (or empty) API credential makes
it throw the API-key error instead of returning the fallback. -/
theorem generateDiagnostics_fallback_on_call_failure :
    (∀ (key : String) (outcome : ApiOutcome), key ≠ "" →
      outcome.isFailure = true →
      generateDiagnostics (some key) outcome = Except.ok fallbackReport) ∧
    (∀ outcome : ApiOutcome,
      generateDiagnostics none outcome = Except.error apiKeyMissingMsg) ∧
    (∀ outcome : ApiOutcome,
      generateDiagnostics (some "") outcome = Except.error apiKeyMissingMsg) := by
  refine ⟨fun key outcome hk hf => ?_, fun outcome => rfl, fun outcome => ?_⟩
  · unfold generateDiagnostics
    rw [if_neg]
    · cases outcome with
      | apiError => rfl
      | emptyResponse => rfl
      | malformed t => rfl
      | parsed d => simp [ApiOutcome.isFailure] at hf
    · rintro (h | h)
      · exact Option.noConfusion h
      · exact hk (Option.some.inj h)
  · unfold generateDiagnostics
    rw [if_pos (Or.inr rfl)]

/-- Witness for the amended C3: a present key with a failing API call yields
the fallback report. -/
theorem generateDiagnostics_fallback_on_call_failure_w :
    ("k" : String) ≠ "" ∧ ApiOutcome.apiError.isFailure = true ∧
    generateDiagnostics (some "k") ApiOutcome.apiError =
      Except.ok fallbackReport :=
  ⟨by decide, rfl,
    generateDiagnostics_fallback_on_call_failure.1 "k" ApiOutcome.apiError
      (by decide) rfl⟩

/-- **C9.**  The stepper draws one scalar noise value and reuses it in the
voltage, current, temperature, frequency and efficiency formulas: it equals
the per-field-noise variant on the diagonal, and two runs with the same
previous sample, target load, noise and timestamp return identical
samples. -/
theorem simulateStep_single_noise_draw :
    (∀ (prev : TelemetryData) (tl n now : ℚ),
      simulateStep prev tl n now =
        simulateStepPerFieldNoise prev tl n n n n n now) ∧
    (∀ (prev : TelemetryData) (tl n now : ℚ) (s1 s2 : TelemetryData),
      s1 = simulateStep prev tl n now → s2 = simulateStep prev tl n now →
      s1 = s2) :=
  ⟨fun _ _ _ _ => rfl, fun _ _ _ _ _ _ h1 h2 => h1.trans h2.symm⟩

/-- Witness for C9: concrete diagonal agreement and determinism of two runs
at targetLoad 40, noise 1/4. -/
theorem simulateStep_single_noise_draw_w :
    simulateStep (MOCK_INITIAL_DATA 0) 40 (1/4) 1 =
      simulateStepPerFieldNoise (MOCK_INITIAL_DATA 0) 40
        (1/4) (1/4) (1/4) (1/4) (1/4) 1 ∧
    simulateStep (MOCK_INITIAL_DATA 0) 40 (1/4) 1 =
      simulateStep (MOCK_INITIAL_DATA 0) 40 (1/4) 1 :=
  ⟨simulateStep_single_noise_draw.1 (MOCK_INITIAL_DATA 0) 40 (1/4) 1,
    simulateStep_single_noise_draw.2 (MOCK_INITIAL_DATA 0) 40 (1/4) 1
      (simulateStep (MOCK_INITIAL_DATA 0) 40 (1/4) 1)
      (simulateStep (MOCK_INITIAL_DATA 0) 40 (1/4) 1) rfl rfl⟩

/-- **C10, counterexample.**  A NaN power does not force the classification
to NOMINAL: with power NaN and temperature 90 the temperature comparison
still fires and the classification is CRITICAL. -/
theorem classifyJS_nan_power_not_nominal :
    classifyJS JSNum.nan (JSNum.val 90) = SystemStatus.CRITICAL ∧
    classifyJS JSNum.nan (JSNum.val 90) ≠ SystemStatus.NOMINAL := by
  decide

/-- **C10, amended.**  Every threshold comparison on a NaN operand evaluates
false, so a NaN operand never triggers WARNING or CRITICAL by itself: the
status is decided by the other operand alone, and when both operands are
NaN — or the non-NaN operand exceeds no threshold — the classification
silently falls through to NOMINAL rather than rejecting the input. -/
theorem classifyJS_nan_comparisons_false :
    (∀ c : ℚ, jsGt JSNum.nan c = false) ∧
    classifyJS JSNum.nan JSNum.nan = SystemStatus.NOMINAL ∧
    (∀ t : JSNum, jsGt t THRESHOLDS.temperature.critical = false →
      jsGt t THRESHOLDS.temperature.warning = false →
      classifyJS JSNum.nan t = SystemStatus.NOMINAL) ∧
    (∀ p : JSNum, jsGt p THRESHOLDS.power.critical = false →
      jsGt p THRESHOLDS.power.warning = false →
      classifyJS p JSNum.nan = SystemStatus.NOMINAL) := by
  refine ⟨fun c => rfl, rfl, fun t h1 h2 => ?_, fun p h1 h2 => ?_⟩
  · simp [classifyJS, jsGt_nan, h1, h2]
  · simp [classifyJS, jsGt_nan, h1, h2]

/-- The temperature field returned by one step, in closed form. -/
lemma simulateStep_temperature (prev : TelemetryData) (tl n now : ℚ) :
    (simulateStep prev tl n now).temperature =
      prev.temperature + ((25 + tl / 100 * 60) - prev.temperature) * 0.05 +
        n * 0.1 := rfl

/-- With zero noise, each step closes exactly 5% of the gap to the
steady-state temperature: the remaining gap is multiplied by 19/20. -/
lemma tempIter_succ_sub (tl T0 : ℚ) (k : ℕ) :
    tempIter tl T0 (k + 1) - (25 + tl * 0.6) =
      (19/20) * (tempIter tl T0 k - (25 + tl * 0.6)) := by
  show (simulateStep _ tl 0 0).temperature - _ = _
  rw [simulateStep_temperature]
  show tempIter tl T0 k + _ + _ - _ = _
  norm_num
  ring

/-- Closed form of the zero-noise temperature gap: geometric decay with
ratio 19/20. -/
lemma tempIter_sub_eq (tl T0 : ℚ) (k : ℕ) :
    tempIter tl T0 k - (25 + tl * 0.6) =
      (19/20) ^ k * (T0 - (25 + tl * 0.6)) := by
  induction k with
  | zero => simp [tempIter]
  | succ k ih => rw [tempIter_succ_sub, ih, pow_succ]; ring

/-- **C8.**  With noise fixed at 0 and a fixed targetLoad in [0,120],
iterating the stepper drives the temperature monotonically toward the
steady state 25 + targetLoad·0.6: each step closes 5% of the remaining gap,
the gap never grows, the trajectory never overshoots the steady state from
either side, and the temperature converges to the steady state. -/
theorem simulateStep_temperature_convergence (tl T0 : ℚ)
    (h0 : 0 ≤ tl) (h1 : tl ≤ 120) :
    (∀ k, tempIter tl T0 (k + 1) - (25 + tl * 0.6) =
      (19/20) * (tempIter tl T0 k - (25 + tl * 0.6))) ∧
    (∀ k, |tempIter tl T0 (k + 1) - (25 + tl * 0.6)| ≤
      |tempIter tl T0 k - (25 + tl * 0.6)|) ∧
    (T0 ≤ 25 + tl * 0.6 → ∀ k,
      tempIter tl T0 k ≤ tempIter tl T0 (k + 1) ∧
      tempIter tl T0 k ≤ 25 + tl * 0.6) ∧
    (25 + tl * 0.6 ≤ T0 → ∀ k,
      tempIter tl T0 (k + 1) ≤ tempIter tl T0 k ∧
      25 + tl * 0.6 ≤ tempIter tl T0 k) ∧
    Filter.Tendsto (fun k => ((tempIter tl T0 k : ℚ) : ℝ))
      Filter.atTop (nhds ((25 + tl * 0.6 : ℚ) : ℝ)) := by
  refine ⟨tempIter_succ_sub tl T0, fun k => ?_, fun hlow k => ?_,
    fun hhigh k => ?_, ?_⟩
  · rw [tempIter_succ_sub, abs_mul]
    have hg := abs_nonneg (tempIter tl T0 k - (25 + tl * 0.6))
    rw [show |(19/20 : ℚ)| = 19/20 by norm_num]
    nlinarith
  · have hk := tempIter_sub_eq tl T0 k
    have hk1 := tempIter_succ_sub tl T0 k
    have hpow : (0 : ℚ) ≤ (19/20) ^ k := by positivity
    have hgap : tempIter tl T0 k - (25 + tl * 0.6) ≤ 0 := by
      rw [hk]
      exact mul_nonpos_iff.mpr (Or.inl ⟨hpow, by linarith⟩)
    constructor
    · nlinarith
    · linarith
  · have hk := tempIter_sub_eq tl T0 k
    have hk1 := tempIter_succ_sub tl T0 k
    have hpow : (0 : ℚ) ≤ (19/20) ^ k := by positivity
    have hgap : 0 ≤ tempIter tl T0 k - (25 + tl * 0.6) := by
      rw [hk]
      exact mul_nonneg hpow (by linarith)
    constructor
    · nlinarith
    · linarith
  · have key : ∀ k : ℕ, ((tempIter tl T0 k : ℚ) : ℝ) =
        ((25 + tl * 0.6 : ℚ) : ℝ) +
          ((19 : ℝ)/20) ^ k * ((T0 - (25 + tl * 0.6) : ℚ) : ℝ) := by
      intro k
      have hcast := congrArg (fun q : ℚ => (q : ℝ)) (tempIter_sub_eq tl T0 k)
      push_cast at hcast ⊢
      linarith
    have hpow : Filter.Tendsto (fun k : ℕ => ((19 : ℝ)/20) ^ k)
        Filter.atTop (nhds 0) :=
      tendsto_pow_atTop_nhds_zero_of_lt_one (by norm_num) (by norm_num)
    have hlim := (hpow.mul_const ((T0 - (25 + tl * 0.6) : ℚ) : ℝ)).const_add
      ((25 + tl * 0.6 : ℚ) : ℝ)
    rw [zero_mul, add_zero] at hlim
    exact hlim.congr fun k => (key k).symm

/-- Witness for C8 at targetLoad 50 starting from temperature 25. -/
theorem simulateStep_temperature_convergence_w :
    (0 : ℚ) ≤ 50 ∧ (50 : ℚ) ≤ 120 ∧
    ((∀ k, tempIter 50 25 (k + 1) - (25 + 50 * 0.6) =
      (19/20) * (tempIter 50 25 k - (25 + 50 * 0.6))) ∧
    (∀ k, |tempIter 50 25 (k + 1) - (25 + 50 * 0.6)| ≤
      |tempIter 50 25 k - (25 + 50 * 0.6)|) ∧
    ((25 : ℚ) ≤ 25 + 50 * 0.6 → ∀ k,
      tempIter 50 25 k ≤ tempIter 50 25 (k + 1) ∧
      tempIter 50 25 k ≤ 25 + 50 * 0.6) ∧
    ((25 : ℚ) + 50 * 0.6 ≤ 25 → ∀ k,
      tempIter 50 25 (k + 1) ≤ tempIter 50 25 k ∧
      25 + 50 * 0.6 ≤ tempIter 50 25 k) ∧
    Filter.Tendsto (fun k => ((tempIter 50 25 k : ℚ) : ℝ))
      Filter.atTop (nhds ((25 + 50 * 0.6 : ℚ) : ℝ))) :=
  ⟨by norm_num, by norm_num,
    simulateStep_temperature_convergence 50 25 (by norm_num) (by norm_num)⟩

/-- Witness for the amended C10: temperature 30 is below both thresholds, so
a NaN power with temperature 30 classifies as NOMINAL. -/
theorem classifyJS_nan_comparisons_false_w :
    jsGt (JSNum.val 30) THRESHOLDS.temperature.critical = false ∧
    jsGt (JSNum.val 30) THRESHOLDS.temperature.warning = false ∧
    classifyJS JSNum.nan (JSNum.val 30) = SystemStatus.NOMINAL :=
  ⟨by decide, by decide,
    classifyJS_nan_comparisons_false.2.2.1 (JSNum.val 30)
      (by decide) (by decide)⟩

end HMI
